import Mathlib

/-!
Verification of the VL53L0X time-of-flight distance sensor driver
(src/app/vl53l0x.c, src/app/vl53l0x.h).

The driver is shallowly embedded: C unsigned arithmetic is modelled on Nat
with explicit reductions modulo 2^8 / 2^16 / 2^32 / 2^64 wherever the C
types truncate; register writes are recorded both in a register map and in
an explicit write log; the blocking polling loops are modelled by an
explicitly fuelled loop together with a tick oracle standing for the
platform's bc_tick_get() monotonic clock.
-/

/-- Bits of x selected by the contiguous mask (2^a - 1) <<< b, expressed
arithmetically.  All concrete C masks used by the driver (0xFF, 0xFF00,
0xFFFFFF00) are instances of this shape. -/
theorem and_contiguous_mask_eq (x a b : Nat) :
    x &&& ((2 ^ a - 1) <<< b) = 2 ^ b * (x / 2 ^ b % 2 ^ a) := by
  apply Nat.eq_of_testBit_eq
  intro i
  have hR : 2 ^ b * (x / 2 ^ b % 2 ^ a) = (x / 2 ^ b % 2 ^ a) <<< b := by
    rw [Nat.shiftLeft_eq, Nat.mul_comm]
  rw [Nat.testBit_and, Nat.testBit_shiftLeft, Nat.testBit_two_pow_sub_one, hR,
    Nat.testBit_shiftLeft, Nat.testBit_mod_two_pow, ← Nat.shiftRight_eq_div_pow,
    Nat.testBit_shiftRight]
  rcases Nat.lt_or_ge i b with h | h
  · simp [Nat.not_le.mpr h]
  · have hg : i ≥ b := h
    have : b + (i - b) = i := by omega
    simp [hg, this]
    rcases Nat.lt_or_ge (i - b) a with h2 | h2
    · simp [h2, Bool.and_comm]
    · simp [Nat.not_lt.mpr h2]

/-- The low-byte mask. -/
theorem and_0xFF (x : Nat) : x &&& 0xFF = x % 256 := by
  have h := and_contiguous_mask_eq x 8 0
  norm_num at h
  simpa using h

/-- The high-byte mask of a 16-bit value. -/
theorem and_0xFF00 (x : Nat) : x &&& 0xFF00 = 256 * (x / 256 % 256) := by
  have h := and_contiguous_mask_eq x 8 8
  norm_num at h
  simpa using h

/-- The mask tested by the encodeTimeout loop (all uint32 bits above the
low byte). -/
theorem and_0xFFFFFF00 (x : Nat) : x &&& 0xFFFFFF00 = 256 * (x / 256 % 16777216) := by
  have h := and_contiguous_mask_eq x 24 8
  norm_num at h
  simpa using h

/-- An or of values with disjoint bit ranges is an addition. -/
theorem two_pow_mul_or_eq_add (n a b : Nat) (hb : b < 2 ^ n) :
    2 ^ n * a ||| b = 2 ^ n * a + b := by
  apply Nat.eq_of_testBit_eq
  intro i
  rw [Nat.testBit_or, Nat.testBit_mul_pow_two]
  rcases Nat.lt_or_ge i n with h | h
  · have hni : ¬ (i ≥ n) := by omega
    have hd : decide (i ≥ n) = false := by simpa using hni
    rw [hd, Bool.false_and, Bool.false_or]
    rw [Nat.testBit_to_div_mod, Nat.testBit_to_div_mod]
    have hpow : 2 ^ i * (2 * 2 ^ (n - i - 1)) = 2 ^ n := by
      rw [show (2 : Nat) * 2 ^ (n - i - 1) = 2 ^ (n - i - 1 + 1) by rw [pow_succ]; ring,
        ← pow_add]
      congr 1
      omega
    have hrw : 2 ^ n * a + b = b + 2 ^ i * (2 * (2 ^ (n - i - 1) * a)) := by
      calc 2 ^ n * a + b = b + 2 ^ i * (2 * 2 ^ (n - i - 1)) * a := by rw [hpow]; ring
      _ = b + 2 ^ i * (2 * (2 ^ (n - i - 1) * a)) := by ring
    rw [hrw, Nat.add_mul_div_left _ _ (Nat.pos_pow_of_pos i (by norm_num)),
      Nat.add_mul_mod_self_left]
  · have hbi : b.testBit i = false :=
      Nat.testBit_lt_two_pow (lt_of_lt_of_le hb (Nat.pow_le_pow_right (by norm_num) h))
    have hd : decide (i ≥ n) = true := by simpa using h
    rw [hd, Bool.true_and, hbi, Bool.or_false]
    rw [Nat.testBit_to_div_mod, Nat.testBit_to_div_mod]
    have hkey : (2 ^ n * a + b) / 2 ^ i = a / 2 ^ (i - n) := by
      have hsplit : (2 : Nat) ^ i = 2 ^ n * 2 ^ (i - n) := by
        rw [← pow_add]
        congr 1
        omega
      rw [hsplit, ← Nat.div_div_eq_div_mul]
      congr 1
      rw [Nat.add_comm, Nat.add_mul_div_left _ _ (Nat.pos_pow_of_pos n (by norm_num)),
        Nat.div_eq_of_lt hb, Nat.zero_add]
    rw [hkey]

/-- For a value that fits in 32 bits, the encodeTimeout loop guard
`(ls_byte & 0xFFFFFF00) > 0` holds exactly when the value needs more than
eight bits. -/
theorem encode_guard_iff (ls : Nat) (h : ls < 4294967296) :
    ls &&& 0xFFFFFF00 ≠ 0 ↔ 256 ≤ ls := by
  rw [and_0xFFFFFF00]
  have hdiv : ls / 256 < 16777216 := by
    rw [Nat.div_lt_iff_lt_mul (by norm_num)]
    omega
  rw [Nat.mod_eq_of_lt hdiv]
  constructor
  · intro hne
    by_contra hlt
    have : ls / 256 = 0 := Nat.div_eq_of_lt (by omega)
    simp [this] at hne
  · intro hge
    have : 0 < ls / 256 := Nat.div_pos hge (by norm_num)
    positivity

/-! ## Timing Model (pure functions, src/app/vl53l0x.c lines 15-27, 1053-1106) -/

/-- C macro decodeVcselPeriod: `((reg_val) + 1) << 1`. -/
def decodeVcselPeriod (reg_val : Nat) : Nat := (reg_val + 1) <<< 1

/-- C macro encodeVcselPeriod: `((period_pclks) >> 1) - 1`, computed in int
and truncated to uint8 at the register-write call sites; the `+ 255` form
reproduces the int subtraction followed by the uint8 conversion. -/
def encodeVcselPeriod (period_pclks : Nat) : Nat := ((period_pclks >>> 1) + 255) % 256

/-- C macro calcMacroPeriod: `(((uint32_t)2304 * pclks * 1655) + 500) / 1000`,
all intermediates in uint32 arithmetic (hence the mod-2^32 reductions). -/
def calcMacroPeriod (vcsel_period_pclks : Nat) : Nat :=
  ((2304 * vcsel_period_pclks % 4294967296 * 1655) % 4294967296 + 500) % 4294967296 / 1000

/-- decodeTimeout (vl53l0x.c line 1057): format "(LSByte * 2^MSByte) + 1",
with the shift truncated to uint16 by the cast and the uint16 return type. -/
def decodeTimeout (reg_val : Nat) : Nat :=
  (((reg_val &&& 0x00FF) <<< ((reg_val &&& 0xFF00) >>> 8)) % 65536 + 1) % 65536

/-- The while-loop of encodeTimeout (vl53l0x.c lines 1079-1083):
`while ((ls_byte & 0xFFFFFF00) > 0) { ls_byte >>= 1; ms_byte++; }`.
ls_byte is a uint32, so the C loop runs at most 32 iterations; the fuel
argument (32 at the call site) makes the recursion structural without
changing the computed value. -/
def encodeLoop : Nat → Nat → Nat → Nat × Nat
  | 0, ls, ms => (ls, ms)
  | fuel + 1, ls, ms =>
    if ls &&& 0xFFFFFF00 ≠ 0 then encodeLoop fuel (ls / 2) (ms + 1) else (ls, ms)

/-- encodeTimeout (vl53l0x.c line 1068): returns `(ms_byte << 8) | (ls_byte & 0xFF)`
for a positive timeout (the argument is a uint16), and 0 for 0. -/
def encodeTimeout (timeout_mclks : Nat) : Nat :=
  if 0 < timeout_mclks then
    (((encodeLoop 32 (timeout_mclks - 1) 0).2 <<< 8) |||
      ((encodeLoop 32 (timeout_mclks - 1) 0).1 &&& 0xFF)) % 65536
  else 0

/-- One unfolding of the encodeTimeout loop. -/
theorem encodeLoop_succ (f ls ms : Nat) :
    encodeLoop (f + 1) ls ms =
      if ls &&& 0xFFFFFF00 ≠ 0 then encodeLoop f (ls / 2) (ms + 1) else (ls, ms) := rfl

/-- The encodeTimeout loop with no fuel left. -/
theorem encodeLoop_zero (ls ms : Nat) : encodeLoop 0 ls ms = (ls, ms) := rfl

/-- timeoutMclksToMicroseconds (vl53l0x.c line 1092): the local
macro_period_ns is calcMacroPeriod of the vcsel period; uint32 arithmetic. -/
def timeoutMclksToMicroseconds (timeout_period_mclks vcsel_period_pclks : Nat) : Nat :=
  (timeout_period_mclks * calcMacroPeriod vcsel_period_pclks % 4294967296 +
    calcMacroPeriod vcsel_period_pclks / 2) % 4294967296 / 1000

/-- timeoutMicrosecondsToMclks (vl53l0x.c line 1101): the local
macro_period_ns is calcMacroPeriod of the vcsel period; uint32 arithmetic. -/
def timeoutMicrosecondsToMclks (timeout_period_us vcsel_period_pclks : Nat) : Nat :=
  (timeout_period_us * 1000 % 4294967296 + calcMacroPeriod vcsel_period_pclks / 2) %
    4294967296 / calcMacroPeriod vcsel_period_pclks

/-- Modelled from the spec (for the refinement comparison of claim C2):
`macro_period_ns(vcsel_pclks) = (2304 * vcsel_pclks * 1655 + 500) / 1000`
as exact integer arithmetic, no 32-bit truncation. -/
def macroPeriodNsSpec (vcsel_pclks : Nat) : Nat := (2304 * vcsel_pclks * 1655 + 500) / 1000

/-- Modelled from the spec (claim C2): `mclks_to_us` as exact integer
arithmetic, no 32-bit truncation. -/
def mclksToUsSpec (mclks vcsel_pclks : Nat) : Nat :=
  (mclks * macroPeriodNsSpec vcsel_pclks + macroPeriodNsSpec vcsel_pclks / 2) / 1000

/-- Modelled from the spec (claim C2): `us_to_mclks` as exact integer
arithmetic, no 32-bit truncation. -/
def usToMclksSpec (us vcsel_pclks : Nat) : Nat :=
  (us * 1000 + macroPeriodNsSpec vcsel_pclks / 2) / macroPeriodNsSpec vcsel_pclks

/-! ### Properties of the encodeTimeout loop -/

/-- Characterization of the encodeTimeout while-loop: with enough fuel it
shifts the value right until it fits in one byte, counting the shifts, and
the last executed iteration really was forced by the guard. -/
theorem encodeLoop_spec :
    ∀ (fuel ls ms : Nat), ls < 4294967296 → ls < 2 ^ (8 + fuel) →
      ∃ k, encodeLoop fuel ls ms = (ls / 2 ^ k, ms + k) ∧ ls / 2 ^ k ≤ 255 ∧
        (k = 0 ∨ 256 ≤ ls / 2 ^ (k - 1)) := by
  intro fuel
  induction fuel with
  | zero =>
    intro ls ms _ hsmall
    refine ⟨0, ?_, ?_, Or.inl rfl⟩
    · rw [encodeLoop_zero]
      simp
    · have : ls < 256 := by simpa using hsmall
      simpa using Nat.lt_succ_iff.mp (by omega)
  | succ f ih =>
    intro ls ms h32 hsmall
    by_cases hg : ls &&& 0xFFFFFF00 ≠ 0
    · have hge : 256 ≤ ls := (encode_guard_iff ls h32).mp hg
      have h32' : ls / 2 < 4294967296 := by omega
      have hsmall' : ls / 2 < 2 ^ (8 + f) := by
        have hls2 : ls < 2 ^ (8 + f) * 2 := by
          have hp : (2 : Nat) ^ (8 + f) * 2 = 2 ^ (8 + (f + 1)) := by
            rw [← pow_succ, Nat.add_assoc]
          omega
        omega
      obtain ⟨k, hk, hle, hlast⟩ := ih (ls / 2) (ms + 1) h32' hsmall'
      have hdd : ls / 2 / 2 ^ k = ls / 2 ^ (k + 1) := by
        rw [Nat.div_div_eq_div_mul, pow_succ, Nat.mul_comm]
      refine ⟨k + 1, ?_, ?_, ?_⟩
      · rw [encodeLoop_succ, if_pos hg, hk, hdd]
        have : ms + 1 + k = ms + (k + 1) := by omega
        rw [this]
      · rw [← hdd]
        exact hle
      · right
        have hsub : k + 1 - 1 = k := by omega
        rw [hsub]
        by_cases hk0 : k = 0
        · subst hk0
          simpa using hge
        · rcases hlast with h0 | hge'
          · exact absurd h0 hk0
          · have heq : ls / 2 / 2 ^ (k - 1) = ls / 2 ^ k := by
              rw [Nat.div_div_eq_div_mul]
              congr 1
              rw [show (2 : Nat) * 2 ^ (k - 1) = 2 ^ (k - 1 + 1) by rw [pow_succ]; ring]
              congr 1
              omega
            rw [heq] at hge'
            exact hge'
    · refine ⟨0, ?_, ?_, Or.inl rfl⟩
      · rw [encodeLoop_succ, if_neg hg]
        simp
      · have hiff := encode_guard_iff ls h32
        have : ¬ 256 ≤ ls := fun hc => hg (hiff.mpr hc)
        simpa using Nat.lt_succ_iff.mp (by omega)

/-- C1: for every timeout value t in [1, 65535], the decode of the encode
never exceeds t (the register encoding is lossy downward only). -/
theorem decode_encode_timeout_le (t : Nat) (h1 : 1 ≤ t) (h2 : t ≤ 65535) :
    decodeTimeout (encodeTimeout t) ≤ t := by
  have hpos : 0 < t := h1
  have hls : t - 1 < 4294967296 := by omega
  have hsmall : t - 1 < 2 ^ (8 + 32) := by
    calc t - 1 < 4294967296 := hls
    _ < 2 ^ 40 := by norm_num
  obtain ⟨k, hk, hle, hlast⟩ := encodeLoop_spec 32 (t - 1) 0 hls hsmall
  -- bound the shift count: k ≤ 8 because t - 1 < 2^16
  have hk8 : k ≤ 8 := by
    rcases hlast with h0 | hge
    · omega
    · by_contra hgt
      have hbig : 2 ^ (k - 1) * 256 ≤ t - 1 := by
        have h2 := Nat.mul_le_mul_right (2 ^ (k - 1)) hge
        calc 2 ^ (k - 1) * 256 = 256 * 2 ^ (k - 1) := by ring
        _ ≤ (t - 1) / 2 ^ (k - 1) * 2 ^ (k - 1) := h2
        _ ≤ t - 1 := Nat.div_mul_le_self _ _
      have h3 : (2 : Nat) ^ 8 ≤ 2 ^ (k - 1) := Nat.pow_le_pow_right (by norm_num) (by omega)
      have h4 : (2 : Nat) ^ 8 * 256 ≤ t - 1 :=
        le_trans (Nat.mul_le_mul_right 256 h3) hbig
      norm_num at h4
      omega
  obtain ⟨L, hLdef⟩ : ∃ L, (t - 1) / 2 ^ k = L := ⟨_, rfl⟩
  rw [hLdef] at hk hle
  have hLk : L * 2 ^ k ≤ t - 1 := by
    rw [← hLdef]
    exact Nat.div_mul_le_self _ _
  have hL255 : L ≤ 255 := hle
  -- the packed register value
  have hreg : encodeTimeout t = k * 256 + L := by
    rw [encodeTimeout, if_pos hpos, hk]
    have hand : L &&& 0xFF = L := by
      rw [and_0xFF, Nat.mod_eq_of_lt (by omega)]
    have hor : ((L, 0 + k).2 <<< 8) ||| ((L, 0 + k).1 &&& 0xFF) = k * 256 + L := by
      show (0 + k) <<< 8 ||| (L &&& 0xFF) = k * 256 + L
      rw [hand, Nat.zero_add, Nat.shiftLeft_eq]
      rw [show k * 2 ^ 8 = 2 ^ 8 * k by ring]
      rw [two_pow_mul_or_eq_add 8 k L (by omega)]
      ring_nf
    rw [hor, Nat.mod_eq_of_lt (by omega)]
  rw [hreg]
  -- now evaluate decodeTimeout on k * 256 + L
  rw [decodeTimeout]
  have hlow : (k * 256 + L) &&& 0x00FF = L := by
    rw [show (0x00FF : Nat) = 0xFF from rfl, and_0xFF]
    omega
  have hhigh : (k * 256 + L) &&& 0xFF00 = 256 * k := by
    rw [and_0xFF00]
    have hdiv : (k * 256 + L) / 256 = k := by omega
    rw [hdiv, Nat.mod_eq_of_lt (by omega)]
  rw [hlow, hhigh]
  have hshift : (256 * k) >>> 8 = k := by
    rw [Nat.shiftRight_eq_div_pow]
    norm_num
  rw [hshift, Nat.shiftLeft_eq]
  have hLk2 : L * 2 ^ k < 65536 := by omega
  rw [Nat.mod_eq_of_lt hLk2, Nat.mod_eq_of_lt (by omega)]
  omega

/-- C1 witness: a concrete round trip inside the claimed range. -/
theorem decode_encode_timeout_le_witness :
    1 ≤ 500 ∧ 500 ≤ 65535 ∧ decodeTimeout (encodeTimeout 500) ≤ 500 :=
  ⟨by decide, by decide, decode_encode_timeout_le 500 (by decide) (by decide)⟩

/-! ## Claim C2: exactness and overflow of the timing conversions -/

/-- The uint32 computation of the macro period never wraps for an 8-bit
vcsel period, so it agrees with the exact formula. -/
theorem calcMacroPeriod_exact (p : Nat) (hp : p < 256) :
    calcMacroPeriod p = macroPeriodNsSpec p := by
  have h1 : 2304 * p % 4294967296 = 2304 * p := Nat.mod_eq_of_lt (by omega)
  have h2 : 2304 * p * 1655 % 4294967296 = 2304 * p * 1655 := Nat.mod_eq_of_lt (by omega)
  have h3 : (2304 * p * 1655 + 500) % 4294967296 = 2304 * p * 1655 + 500 :=
    Nat.mod_eq_of_lt (by omega)
  rw [calcMacroPeriod, macroPeriodNsSpec, h1, h2, h3]

/-- C2 counterexample: at mclks = 65535 (a 16-bit value) and
vcsel_period_pclks = 255 (an 8-bit value) the product
mclks * macro_period_ns exceeds the 32-bit range, so
timeoutMclksToMicroseconds does not compute the exact mathematical value
and the claim's no-overflow assertion fails. -/
theorem timeout_conversion_overflow_cex :
    timeoutMclksToMicroseconds 65535 255 ≠ mclksToUsSpec 65535 255 := by decide

/-- C2 amended: the conversions compute the claimed round-half-up formulas
with every intermediate reduced modulo 2^32 (C uint32 arithmetic); they
equal the exact mathematical value exactly when the biased numerator fits
in 32 bits, which holds for small inputs but not for all 16-bit mclks /
8-bit pclks pairs. -/
theorem timeout_conversions_exact (m u p : Nat) (hp : p < 256) :
    calcMacroPeriod p = macroPeriodNsSpec p ∧
    (m * macroPeriodNsSpec p + macroPeriodNsSpec p / 2 < 4294967296 →
      timeoutMclksToMicroseconds m p = mclksToUsSpec m p) ∧
    (u * 1000 + macroPeriodNsSpec p / 2 < 4294967296 →
      timeoutMicrosecondsToMclks u p = usToMclksSpec u p) := by
  have hmac := calcMacroPeriod_exact p hp
  refine ⟨hmac, ?_, ?_⟩
  · intro hfit
    rw [timeoutMclksToMicroseconds, hmac, mclksToUsSpec]
    rw [Nat.mod_eq_of_lt (show m * macroPeriodNsSpec p < 4294967296 by omega)]
    rw [Nat.mod_eq_of_lt hfit]
  · intro hfit
    rw [timeoutMicrosecondsToMclks, hmac, usToMclksSpec]
    rw [Nat.mod_eq_of_lt (show u * 1000 < 4294967296 by omega)]
    rw [Nat.mod_eq_of_lt hfit]

/-- C2 witness: the conversions are exact at the driver's default operating
point (38 mclks, 2055 us, vcsel period 14 pclks). -/
theorem timeout_conversions_exact_witness :
    14 < 256 ∧
    38 * macroPeriodNsSpec 14 + macroPeriodNsSpec 14 / 2 < 4294967296 ∧
    2055 * 1000 + macroPeriodNsSpec 14 / 2 < 4294967296 ∧
    timeoutMclksToMicroseconds 38 14 = mclksToUsSpec 38 14 ∧
    timeoutMicrosecondsToMclks 2055 14 = usToMclksSpec 2055 14 :=
  ⟨by decide, by decide, by decide,
    (timeout_conversions_exact 38 2055 14 (by decide)).2.1 (by decide),
    (timeout_conversions_exact 38 2055 14 (by decide)).2.2 (by decide)⟩

/-! ## Device / driver state model

The C driver keeps its state in the globals declared in vl53l0x.h
(address, io_timeout, did_timeout) and vl53l0x.c (stop_variable,
measurement_timing_budget_us).  The sensor's registers are modelled as a
byte map; every register write is additionally appended to a write log so
that frame conditions ("no register write was issued") are expressible.
The platform tick source bc_tick_get() and the device-driven registers
observed by the polling loops are oracles supplied per call. -/

/-- One bus write issued by the driver (8-bit, 16-bit big-endian or
32-bit big-endian register write). -/
inductive RegWrite where
  | w8 (reg val : Nat)
  | w16 (reg val : Nat)
  | w32 (reg val : Nat)
deriving DecidableEq

/-- The driver's mutable state: the C globals plus the sensor register
file and the log of writes issued so far. -/
structure DriverState where
  regs : Nat → Nat
  address : Nat
  io_timeout : Nat
  did_timeout : Bool
  stop_variable : Nat
  measurement_timing_budget_us : Nat
  writes : List RegWrite

/-- vl53l0x_write_reg: writes one byte (the uint8 conversion is the
mod 256) and logs the write. -/
def vl53l0x_write_reg (s : DriverState) (reg value : Nat) : DriverState :=
  { s with
    regs := fun r => if r = reg then value % 256 else s.regs r,
    writes := s.writes ++ [RegWrite.w8 reg (value % 256)] }

/-- vl53l0x_write_reg16_bit: big-endian two-byte write of a uint16. -/
def vl53l0x_write_reg16_bit (s : DriverState) (reg value : Nat) : DriverState :=
  { s with
    regs := fun r =>
      if r = reg then value % 65536 / 256
      else if r = reg + 1 then value % 256
      else s.regs r,
    writes := s.writes ++ [RegWrite.w16 reg (value % 65536)] }

/-- vl53l0x_write_reg32_bit: big-endian four-byte write of a uint32. -/
def vl53l0x_write_reg32_bit (s : DriverState) (reg value : Nat) : DriverState :=
  { s with
    regs := fun r =>
      if r = reg then value % 4294967296 / 16777216
      else if r = reg + 1 then value % 16777216 / 65536
      else if r = reg + 2 then value % 65536 / 256
      else if r = reg + 3 then value % 256
      else s.regs r,
    writes := s.writes ++ [RegWrite.w32 reg (value % 4294967296)] }

/-- vl53l0x_read_reg: one byte from the register file. -/
def vl53l0x_read_reg (s : DriverState) (reg : Nat) : Nat := s.regs reg % 256

/-- vl53l0x_read_reg16_bit: big-endian two-byte read. -/
def vl53l0x_read_reg16_bit (s : DriverState) (reg : Nat) : Nat :=
  256 * (s.regs reg % 256) + s.regs (reg + 1) % 256

/-- The platform tick oracle for one blocking call: the value
bc_tick_get() returned at startTimeout(), and the value it returns at the
i-th loop-guard evaluation. -/
structure TickEnv where
  timeout_start_ms : Nat
  tickAt : Nat → Nat

/-- C macro checkTimeoutExpired:
`io_timeout > 0 && (bc_tick_get() - timeout_start_ms) > io_timeout`, the
subtraction being uint64 (bc_tick_t) wraparound arithmetic. -/
def checkTimeoutExpired (io_tmo : Nat) (env : TickEnv) (i : Nat) : Bool :=
  decide (0 < io_tmo) &&
    decide (io_tmo <
      (env.tickAt i % 18446744073709551616 + (18446744073709551616 -
        env.timeout_start_ms % 18446744073709551616)) % 18446744073709551616)

/-- Outcome of a blocking poll: the guard became false at iteration i, the
deadline expired at iteration i, or the fuel ran out (modelling an
unbounded busy-wait that never returned). -/
inductive PollOutcome where
  | done (i : Nat)
  | expired (i : Nat)
  | fuelOut
deriving DecidableEq

/-- The shape shared by all four blocking polls of the driver:
`startTimeout(); while (notDone) { if (checkTimeoutExpired()) fail; }`.
notDone i is the guard computed from the i-th read of the polled register;
isExpired i is checkTimeoutExpired at that iteration. -/
def pollWhile (notDone isExpired : Nat → Bool) : Nat → Nat → PollOutcome
  | 0, _ => PollOutcome.fuelOut
  | fuel + 1, i =>
    if notDone i then
      if isExpired i then PollOutcome.expired i
      else pollWhile notDone isExpired fuel (i + 1)
    else PollOutcome.done i

/-! ### Register addresses (the regAddr enum of vl53l0x.c) -/

def SYSRANGE_START : Nat := 0x00
def SYSTEM_SEQUENCE_CONFIG : Nat := 0x01
def SYSTEM_INTERMEASUREMENT_PERIOD : Nat := 0x04
def SYSTEM_INTERRUPT_CLEAR : Nat := 0x0B
def RESULT_INTERRUPT_STATUS : Nat := 0x13
def RESULT_RANGE_STATUS : Nat := 0x14
def I2C_SLAVE_DEVICE_ADDRESS : Nat := 0x8A
def MSRC_CONFIG_TIMEOUT_MACROP : Nat := 0x46
def FINAL_RANGE_CONFIG_MIN_COUNT_RATE_RTN_LIMIT : Nat := 0x44
def PRE_RANGE_CONFIG_VALID_PHASE_LOW : Nat := 0x56
def PRE_RANGE_CONFIG_VALID_PHASE_HIGH : Nat := 0x57
def PRE_RANGE_CONFIG_VCSEL_PERIOD : Nat := 0x50
def PRE_RANGE_CONFIG_TIMEOUT_MACROP_HI : Nat := 0x51
def FINAL_RANGE_CONFIG_VALID_PHASE_LOW : Nat := 0x47
def FINAL_RANGE_CONFIG_VALID_PHASE_HIGH : Nat := 0x48
def FINAL_RANGE_CONFIG_VCSEL_PERIOD : Nat := 0x70
def FINAL_RANGE_CONFIG_TIMEOUT_MACROP_HI : Nat := 0x71
def GLOBAL_CONFIG_VCSEL_WIDTH : Nat := 0x32
def ALGO_PHASECAL_LIM : Nat := 0x30
def ALGO_PHASECAL_CONFIG_TIMEOUT : Nat := 0x30
def OSC_CALIBRATE_VAL : Nat := 0xF8

/-- The two values of the vcselPeriodType enum (C enums start at 0); any
other value falls into the defensive final else of
vl53l0x_set_vcsel_pulse_period. -/
def VcselPeriodPreRange : Nat := 0

/-- Second value of the vcselPeriodType enum. -/
def VcselPeriodFinalRange : Nat := 1

/-! ### Simple driver operations -/

/-- vl53l0x_set_address (vl53l0x.c line 381): writes the masked address to
the device, then stores the unmasked argument in the address global. -/
def vl53l0x_set_address (s : DriverState) (new_addr : Nat) : DriverState :=
  { vl53l0x_write_reg s I2C_SLAVE_DEVICE_ADDRESS (new_addr &&& 0x7F) with
    address := new_addr }

/-- vl53l0x_timeout_occurred (vl53l0x.c line 954): read-and-clear of the
sticky did_timeout flag. -/
def vl53l0x_timeout_occurred (s : DriverState) : Bool × DriverState :=
  (s.did_timeout, { s with did_timeout := false })

/-- vl53l0x_set_signal_rate_limit (vl53l0x.c line 489).  The C argument is
a float; it is modelled as a rational, with the Q9.7 conversion (value
times 128 truncated towards zero, then converted to uint16). -/
def vl53l0x_set_signal_rate_limit (s : DriverState) (limit_mcps : ℚ) : Bool × DriverState :=
  if limit_mcps < 0 ∨ 511.99 < limit_mcps then (false, s)
  else
    (true, vl53l0x_write_reg16_bit s FINAL_RANGE_CONFIG_MIN_COUNT_RATE_RTN_LIMIT
      (Int.toNat ⌊limit_mcps * 128⌋ % 65536))

/-- vl53l0x_start_continuous (vl53l0x.c line 850): stop_variable restore
sequence, then timed mode (with the inter-measurement period scaled by the
oscillator calibration value when that value is nonzero) or back-to-back
mode.  period_ms is a uint32, so the scaling multiply wraps modulo 2^32. -/
def vl53l0x_start_continuous (s : DriverState) (period_ms : Nat) : DriverState :=
  let s1 := vl53l0x_write_reg s 0x80 0x01
  let s2 := vl53l0x_write_reg s1 0xFF 0x01
  let s3 := vl53l0x_write_reg s2 0x00 0x00
  let s4 := vl53l0x_write_reg s3 0x91 s.stop_variable
  let s5 := vl53l0x_write_reg s4 0x00 0x01
  let s6 := vl53l0x_write_reg s5 0xFF 0x00
  let s7 := vl53l0x_write_reg s6 0x80 0x00
  if period_ms ≠ 0 then
    let osc_calibrate_val := vl53l0x_read_reg16_bit s7 OSC_CALIBRATE_VAL
    let period' := if osc_calibrate_val ≠ 0 then period_ms * osc_calibrate_val % 4294967296
                   else period_ms
    let s8 := vl53l0x_write_reg32_bit s7 SYSTEM_INTERMEASUREMENT_PERIOD period'
    vl53l0x_write_reg s8 SYSRANGE_START 0x04
  else
    vl53l0x_write_reg s7 SYSRANGE_START 0x02

/-! ### Sequence step enables and timeouts -/

/-- SequenceStepEnables (vl53l0x.c line 119). -/
structure SequenceStepEnables where
  tcc : Bool
  msrc : Bool
  dss : Bool
  pre_range : Bool
  final_range : Bool
deriving DecidableEq

/-- SequenceStepTimeouts (vl53l0x.c line 124). -/
structure SequenceStepTimeouts where
  pre_range_vcsel_period_pclks : Nat
  final_range_vcsel_period_pclks : Nat
  msrc_dss_tcc_mclks : Nat
  pre_range_mclks : Nat
  final_range_mclks : Nat
  msrc_dss_tcc_us : Nat
  pre_range_us : Nat
  final_range_us : Nat
deriving DecidableEq

/-- getSequenceStepEnables (vl53l0x.c line 1008): decodes bits 4,3,2,6,7
of SYSTEM_SEQUENCE_CONFIG. -/
def getSequenceStepEnables (s : DriverState) : SequenceStepEnables :=
  { tcc := (vl53l0x_read_reg s SYSTEM_SEQUENCE_CONFIG >>> 4) &&& 0x1 == 1,
    dss := (vl53l0x_read_reg s SYSTEM_SEQUENCE_CONFIG >>> 3) &&& 0x1 == 1,
    msrc := (vl53l0x_read_reg s SYSTEM_SEQUENCE_CONFIG >>> 2) &&& 0x1 == 1,
    pre_range := (vl53l0x_read_reg s SYSTEM_SEQUENCE_CONFIG >>> 6) &&& 0x1 == 1,
    final_range := (vl53l0x_read_reg s SYSTEM_SEQUENCE_CONFIG >>> 7) &&& 0x1 == 1 }

/-- vl53l0x_get_vcsel_pulse_period (vl53l0x.c line 831): decodes the
period register for the requested type; the uint8 return type truncates
the decode (relevant only for out-of-range register values). -/
def vl53l0x_get_vcsel_pulse_period (s : DriverState) (type : Nat) : Nat :=
  if type = VcselPeriodPreRange then
    decodeVcselPeriod (vl53l0x_read_reg s PRE_RANGE_CONFIG_VCSEL_PERIOD) % 256
  else if type = VcselPeriodFinalRange then
    decodeVcselPeriod (vl53l0x_read_reg s FINAL_RANGE_CONFIG_VCSEL_PERIOD) % 256
  else 255

/-- getSequenceStepTimeouts (vl53l0x.c line 1023).  The final-range MCLK
field has the pre-range MCLKs subtracted (uint16 wraparound subtraction)
when the pre-range step is enabled. -/
def getSequenceStepTimeouts (s : DriverState) (enables : SequenceStepEnables) :
    SequenceStepTimeouts :=
  let pre_p := vl53l0x_get_vcsel_pulse_period s VcselPeriodPreRange
  let msrc_mclks := (vl53l0x_read_reg s MSRC_CONFIG_TIMEOUT_MACROP + 1) % 65536
  let pre_mclks := decodeTimeout (vl53l0x_read_reg16_bit s PRE_RANGE_CONFIG_TIMEOUT_MACROP_HI)
  let fin_p := vl53l0x_get_vcsel_pulse_period s VcselPeriodFinalRange
  let fin_mclks0 := decodeTimeout (vl53l0x_read_reg16_bit s FINAL_RANGE_CONFIG_TIMEOUT_MACROP_HI)
  let fin_mclks := if enables.pre_range then (fin_mclks0 + 65536 - pre_mclks) % 65536
                   else fin_mclks0
  { pre_range_vcsel_period_pclks := pre_p,
    final_range_vcsel_period_pclks := fin_p,
    msrc_dss_tcc_mclks := msrc_mclks,
    pre_range_mclks := pre_mclks,
    final_range_mclks := fin_mclks,
    msrc_dss_tcc_us := timeoutMclksToMicroseconds msrc_mclks pre_p,
    pre_range_us := timeoutMclksToMicroseconds pre_mclks pre_p,
    final_range_us := timeoutMclksToMicroseconds fin_mclks fin_p }

/-! ### Measurement timing budget -/

/-- The used_budget_us accumulator of
vl53l0x_set_measurement_timing_budget (vl53l0x.c lines 528-549) just
before the final-range branch: StartOverhead 1320 + EndOverhead 960 plus
the enabled steps' contributions, computed in uint32 arithmetic. -/
def usedBudgetPreFinal (s : DriverState) : Nat :=
  let enables := getSequenceStepEnables s
  let timeouts := getSequenceStepTimeouts s enables
  let u0 := 1320 + 960
  let u1 := if enables.tcc then
      (u0 + (timeouts.msrc_dss_tcc_us + 590) % 4294967296) % 4294967296 else u0
  let u2 := if enables.dss then
      (u1 + 2 * ((timeouts.msrc_dss_tcc_us + 690) % 4294967296) % 4294967296) % 4294967296
    else if enables.msrc then
      (u1 + (timeouts.msrc_dss_tcc_us + 660) % 4294967296) % 4294967296
    else u1
  if enables.pre_range then
    (u2 + (timeouts.pre_range_us + 660) % 4294967296) % 4294967296
  else u2

/-- used_budget_us after adding FinalRangeOverhead 550 (vl53l0x.c line
554), the value compared against the requested budget. -/
def usedBudgetUs (s : DriverState) : Nat := (usedBudgetPreFinal s + 550) % 4294967296

/-- vl53l0x_set_measurement_timing_budget (vl53l0x.c line 511).  Fails
below the 20000 us minimum; with the final-range step enabled it fails
when the accumulated used budget exceeds the request, otherwise it writes
the recomputed final-range timeout register and caches the budget. -/
def vl53l0x_set_measurement_timing_budget (s : DriverState) (budget_us : Nat) :
    Bool × DriverState :=
  if budget_us < 20000 then (false, s)
  else
    let enables := getSequenceStepEnables s
    let timeouts := getSequenceStepTimeouts s enables
    if enables.final_range then
      if budget_us < usedBudgetUs s then (false, s)
      else
        let final_range_timeout_us := budget_us - usedBudgetUs s
        let final_range_timeout_mclks :=
          timeoutMicrosecondsToMclks final_range_timeout_us
            timeouts.final_range_vcsel_period_pclks % 65536
        let final_range_timeout_mclks' :=
          if enables.pre_range then
            (final_range_timeout_mclks + timeouts.pre_range_mclks) % 65536
          else final_range_timeout_mclks
        let s1 := vl53l0x_write_reg16_bit s FINAL_RANGE_CONFIG_TIMEOUT_MACROP_HI
          (encodeTimeout final_range_timeout_mclks')
        (true, { s1 with measurement_timing_budget_us := budget_us })
    else (true, s)

/-! ### Blocking operations (polls against the tick oracle) -/

/-- performSingleRefCalibration (vl53l0x.c line 1110): start write, poll
RESULT_INTERRUPT_STATUS low bits, on success clear the interrupt and stop.
On deadline expiry it returns false without touching did_timeout. -/
def performSingleRefCalibration (s : DriverState) (env : TickEnv) (irqAt : Nat → Nat)
    (vhv_init_byte : Nat) (fuel : Nat) : Option (Bool × DriverState) :=
  let s1 := vl53l0x_write_reg s SYSRANGE_START (0x01 ||| vhv_init_byte)
  match pollWhile (fun i => (irqAt i % 256) &&& 0x07 == 0)
      (checkTimeoutExpired s.io_timeout env) fuel 0 with
  | PollOutcome.fuelOut => none
  | PollOutcome.expired _ => some (false, s1)
  | PollOutcome.done _ =>
    let s2 := vl53l0x_write_reg s1 SYSTEM_INTERRUPT_CLEAR 0x01
    some (true, vl53l0x_write_reg s2 SYSRANGE_START 0x00)

/-- vl53l0x_read_range_continuous_millimeters (vl53l0x.c line 902): poll
RESULT_INTERRUPT_STATUS low bits; on expiry set did_timeout and return the
65535 sentinel; on success read the 16-bit range and clear the interrupt. -/
def vl53l0x_read_range_continuous_millimeters (s : DriverState) (env : TickEnv)
    (irqAt : Nat → Nat) (fuel : Nat) : Option (Nat × DriverState) :=
  match pollWhile (fun i => (irqAt i % 256) &&& 0x07 == 0)
      (checkTimeoutExpired s.io_timeout env) fuel 0 with
  | PollOutcome.fuelOut => none
  | PollOutcome.expired _ => some (65535, { s with did_timeout := true })
  | PollOutcome.done _ =>
    let range := vl53l0x_read_reg16_bit s (RESULT_RANGE_STATUS + 10)
    some (range, vl53l0x_write_reg s SYSTEM_INTERRUPT_CLEAR 0x01)

/-- vl53l0x_read_range_single_millimeters (vl53l0x.c line 926):
stop_variable restore sequence, start command, poll until the start bit
clears (on expiry set did_timeout and return the sentinel), then delegate
to the continuous read.  env1/startAt drive the start-bit poll, env2/irqAt
the interrupt poll of the delegated call. -/
def vl53l0x_read_range_single_millimeters (s : DriverState) (env1 : TickEnv)
    (startAt : Nat → Nat) (env2 : TickEnv) (irqAt : Nat → Nat) (fuel : Nat) :
    Option (Nat × DriverState) :=
  let s1 := vl53l0x_write_reg s 0x80 0x01
  let s2 := vl53l0x_write_reg s1 0xFF 0x01
  let s3 := vl53l0x_write_reg s2 0x00 0x00
  let s4 := vl53l0x_write_reg s3 0x91 s.stop_variable
  let s5 := vl53l0x_write_reg s4 0x00 0x01
  let s6 := vl53l0x_write_reg s5 0xFF 0x00
  let s7 := vl53l0x_write_reg s6 0x80 0x00
  let s8 := vl53l0x_write_reg s7 SYSRANGE_START 0x01
  match pollWhile (fun i => (startAt i % 256) &&& 0x01 != 0)
      (checkTimeoutExpired s.io_timeout env1) fuel 0 with
  | PollOutcome.fuelOut => none
  | PollOutcome.expired _ => some (65535, { s8 with did_timeout := true })
  | PollOutcome.done _ => vl53l0x_read_range_continuous_millimeters s8 env2 irqAt fuel

/-- getSpadInfo (vl53l0x.c line 966): bank-switched setup writes, poll of
register 0x83, then the SPAD count/type read-out and tear-down.  On
deadline expiry it returns false (out parameters unwritten in C, modelled
as 0/false) without touching did_timeout. -/
def getSpadInfo (s : DriverState) (env : TickEnv) (reg83At : Nat → Nat) (fuel : Nat) :
    Option (Bool × Nat × Bool × DriverState) :=
  let s1 := vl53l0x_write_reg s 0x80 0x01
  let s2 := vl53l0x_write_reg s1 0xFF 0x01
  let s3 := vl53l0x_write_reg s2 0x00 0x00
  let s4 := vl53l0x_write_reg s3 0xFF 0x06
  let s5 := vl53l0x_write_reg s4 0x83 (vl53l0x_read_reg s4 0x83 ||| 0x04)
  let s6 := vl53l0x_write_reg s5 0xFF 0x07
  let s7 := vl53l0x_write_reg s6 0x81 0x01
  let s8 := vl53l0x_write_reg s7 0x80 0x01
  let s9 := vl53l0x_write_reg s8 0x94 0x6b
  let s10 := vl53l0x_write_reg s9 0x83 0x00
  match pollWhile (fun i => reg83At i % 256 == 0x00)
      (checkTimeoutExpired s.io_timeout env) fuel 0 with
  | PollOutcome.fuelOut => none
  | PollOutcome.expired _ => some (false, 0, false, s10)
  | PollOutcome.done _ =>
    let s11 := vl53l0x_write_reg s10 0x83 0x01
    let tmp := vl53l0x_read_reg s11 0x92
    let count := tmp &&& 0x7f
    let type_is_aperture := (tmp >>> 7) &&& 0x01 == 1
    let s12 := vl53l0x_write_reg s11 0x81 0x00
    let s13 := vl53l0x_write_reg s12 0xFF 0x06
    let s14 := vl53l0x_write_reg s13 0x83 (vl53l0x_read_reg s13 0x83 &&& 0xFB)
    let s15 := vl53l0x_write_reg s14 0xFF 0x01
    let s16 := vl53l0x_write_reg s15 0x00 0x01
    let s17 := vl53l0x_write_reg s16 0xFF 0x00
    some (true, count, type_is_aperture, vl53l0x_write_reg s17 0x80 0x00)

/-- Tail of vl53l0x_set_vcsel_pulse_period (vl53l0x.c lines 812-826),
shared by both valid branches: re-apply the cached timing budget (result
ignored by the C code), then run a phase calibration under sequence-config
0x02 and restore the previous sequence config.  Returns none when the
calibration poll runs out of fuel (models an unbounded busy-wait). -/
def setVcselPulsePeriodTail (s : DriverState) (env : TickEnv) (irqAt : Nat → Nat)
    (fuel : Nat) : Option (Bool × DriverState) :=
  let sb := (vl53l0x_set_measurement_timing_budget s s.measurement_timing_budget_us).2
  let sequence_config := vl53l0x_read_reg sb SYSTEM_SEQUENCE_CONFIG
  let sc := vl53l0x_write_reg sb SYSTEM_SEQUENCE_CONFIG 0x02
  match performSingleRefCalibration sc env irqAt 0x0 fuel with
  | none => none
  | some (_, sd) => some (true, vl53l0x_write_reg sd SYSTEM_SEQUENCE_CONFIG sequence_config)

/-- vl53l0x_set_vcsel_pulse_period (vl53l0x.c line 654).  The switch on
period_pclks validates the request; an invalid period or type returns
false before any register write.  Valid requests write the phase-check
limits, the new period, the re-encoded step timeouts, then run the shared
tail.  The C function returns true regardless of the tail's internal
results. -/
def vl53l0x_set_vcsel_pulse_period (s : DriverState) (type period_pclks : Nat)
    (env : TickEnv) (irqAt : Nat → Nat) (fuel : Nat) : Option (Bool × DriverState) :=
  let vcsel_period_reg := encodeVcselPeriod period_pclks
  let enables := getSequenceStepEnables s
  let timeouts := getSequenceStepTimeouts s enables
  if type = VcselPeriodPreRange then
    if period_pclks = 12 ∨ period_pclks = 14 ∨ period_pclks = 16 ∨ period_pclks = 18 then
      let phase_high : Nat :=
        if period_pclks = 12 then 0x18
        else if period_pclks = 14 then 0x30
        else if period_pclks = 16 then 0x40
        else 0x50
      let s1 := vl53l0x_write_reg s PRE_RANGE_CONFIG_VALID_PHASE_HIGH phase_high
      let s2 := vl53l0x_write_reg s1 PRE_RANGE_CONFIG_VALID_PHASE_LOW 0x08
      let s3 := vl53l0x_write_reg s2 PRE_RANGE_CONFIG_VCSEL_PERIOD vcsel_period_reg
      let new_pre_range_timeout_mclks :=
        timeoutMicrosecondsToMclks timeouts.pre_range_us period_pclks % 65536
      let s4 := vl53l0x_write_reg16_bit s3 PRE_RANGE_CONFIG_TIMEOUT_MACROP_HI
        (encodeTimeout new_pre_range_timeout_mclks)
      let new_msrc_timeout_mclks :=
        timeoutMicrosecondsToMclks timeouts.msrc_dss_tcc_us period_pclks % 65536
      let s5 := vl53l0x_write_reg s4 MSRC_CONFIG_TIMEOUT_MACROP
        (if 256 < new_msrc_timeout_mclks then 255 else (new_msrc_timeout_mclks + 65535) % 65536)
      setVcselPulsePeriodTail s5 env irqAt fuel
    else some (false, s)
  else if type = VcselPeriodFinalRange then
    if period_pclks = 8 ∨ period_pclks = 10 ∨ period_pclks = 12 ∨ period_pclks = 14 then
      let phase_high : Nat :=
        if period_pclks = 8 then 0x10
        else if period_pclks = 10 then 0x28
        else if period_pclks = 12 then 0x38
        else 0x48
      let vcsel_width : Nat := if period_pclks = 8 then 0x02 else 0x03
      let phasecal_tmo : Nat :=
        if period_pclks = 8 then 0x0C
        else if period_pclks = 10 then 0x09
        else if period_pclks = 12 then 0x08
        else 0x07
      let phasecal_lim : Nat := if period_pclks = 8 then 0x30 else 0x20
      let s1 := vl53l0x_write_reg s FINAL_RANGE_CONFIG_VALID_PHASE_HIGH phase_high
      let s2 := vl53l0x_write_reg s1 FINAL_RANGE_CONFIG_VALID_PHASE_LOW 0x08
      let s3 := vl53l0x_write_reg s2 GLOBAL_CONFIG_VCSEL_WIDTH vcsel_width
      let s4 := vl53l0x_write_reg s3 ALGO_PHASECAL_CONFIG_TIMEOUT phasecal_tmo
      let s5 := vl53l0x_write_reg s4 0xFF 0x01
      let s6 := vl53l0x_write_reg s5 ALGO_PHASECAL_LIM phasecal_lim
      let s7 := vl53l0x_write_reg s6 0xFF 0x00
      let s8 := vl53l0x_write_reg s7 FINAL_RANGE_CONFIG_VCSEL_PERIOD vcsel_period_reg
      let new_final_range_timeout_mclks :=
        timeoutMicrosecondsToMclks timeouts.final_range_us period_pclks % 65536
      let new_final_range_timeout_mclks' :=
        if enables.pre_range then
          (new_final_range_timeout_mclks + timeouts.pre_range_mclks) % 65536
        else new_final_range_timeout_mclks
      let s9 := vl53l0x_write_reg16_bit s8 FINAL_RANGE_CONFIG_TIMEOUT_MACROP_HI
        (encodeTimeout new_final_range_timeout_mclks')
      setVcselPulsePeriodTail s9 env irqAt fuel
    else some (false, s)
  else some (false, s)

/-! ### Concrete states and oracles used by the witnesses -/

/-- The sensor register values after vl53l0x_init with the default tuning
table: sequence config 0xE8; pre-range vcsel period register 0x06 (14
pclks); MSRC timeout register 0x25; pre-range timeout register 0x0096;
final-range vcsel period register 0x04 (10 pclks); and final-range
timeout register 0x0294 as rewritten by the budget recomputation at the
end of init. -/
def postInitRegs : Nat → Nat := fun r =>
  if r = 0x01 then 0xE8
  else if r = 0x50 then 0x06
  else if r = 0x46 then 0x25
  else if r = 0x51 then 0x00
  else if r = 0x52 then 0x96
  else if r = 0x70 then 0x04
  else if r = 0x71 then 0x02
  else if r = 0x72 then 0x94
  else 0

/-- Driver state right after a successful vl53l0x_init(0x29, 500, false). -/
def postInitState : DriverState :=
  { regs := postInitRegs, address := 0x29, io_timeout := 500, did_timeout := false,
    stop_variable := 0, measurement_timing_budget_us := 33971, writes := [] }

/-- A state with every register zero (in particular every sequence step,
final_range included, disabled) and a 1 ms timeout. -/
def zeroState : DriverState :=
  { regs := fun _ => 0, address := 0x29, io_timeout := 1, did_timeout := false,
    stop_variable := 0, measurement_timing_budget_us := 0, writes := [] }

/-- A tick oracle whose clock has already advanced past any 1 ms deadline
at the first guard evaluation. -/
def expiredTickEnv : TickEnv := { timeout_start_ms := 0, tickAt := fun _ => 10 }

/-- A tick oracle whose clock never advances (no deadline ever expires). -/
def idleTickEnv : TickEnv := { timeout_start_ms := 0, tickAt := fun _ => 0 }

/-! ### Helper lemmas about the polls -/

/-- One unfolding of pollWhile. -/
theorem pollWhile_succ (notDone isExpired : Nat → Bool) (f i : Nat) :
    pollWhile notDone isExpired (f + 1) i =
      if notDone i then
        if isExpired i then PollOutcome.expired i
        else pollWhile notDone isExpired f (i + 1)
      else PollOutcome.done i := rfl

/-- A poll whose guard is already false succeeds immediately. -/
theorem pollWhile_done_zero (notDone isExpired : Nat → Bool) (f : Nat)
    (h : notDone 0 = false) :
    pollWhile notDone isExpired (f + 1) 0 = PollOutcome.done 0 := by
  rw [pollWhile_succ, h]
  simp

/-- The continuous read on an expired poll: sentinel plus sticky flag. -/
theorem read_range_continuous_expired (s : DriverState) (env : TickEnv)
    (irqAt : Nat → Nat) (fuel j : Nat)
    (h : pollWhile (fun i => (irqAt i % 256) &&& 0x07 == 0)
        (checkTimeoutExpired s.io_timeout env) fuel 0 = PollOutcome.expired j) :
    vl53l0x_read_range_continuous_millimeters s env irqAt fuel =
      some (65535, { s with did_timeout := true }) := by
  unfold vl53l0x_read_range_continuous_millimeters
  rw [h]

/-- Projection form of the previous lemma: sentinel and flag only. -/
theorem read_range_continuous_expired_proj (s : DriverState) (env : TickEnv)
    (irqAt : Nat → Nat) (fuel j : Nat)
    (h : pollWhile (fun i => (irqAt i % 256) &&& 0x07 == 0)
        (checkTimeoutExpired s.io_timeout env) fuel 0 = PollOutcome.expired j) :
    (vl53l0x_read_range_continuous_millimeters s env irqAt fuel).map
      (fun r => (r.1, r.2.did_timeout)) = some (65535, true) := by
  rw [read_range_continuous_expired s env irqAt fuel j h]
  rfl

/-- timeout_occurred consumes the sticky flag: true once, then false. -/
theorem timeout_occurred_chain (s : DriverState) (h : s.did_timeout = true) :
    (vl53l0x_timeout_occurred s).1 = true ∧
      (vl53l0x_timeout_occurred (vl53l0x_timeout_occurred s).2).1 = false := by
  exact ⟨h, rfl⟩

/-- A calibration whose interrupt poll succeeds at once returns true after
the interrupt-clear and stop writes. -/
theorem performSingleRefCalibration_succeeds (s : DriverState) (env : TickEnv)
    (irqAt : Nat → Nat) (vhv f : Nat) (h : (irqAt 0 % 256) &&& 0x07 ≠ 0) :
    performSingleRefCalibration s env irqAt vhv (f + 1) =
      some (true,
        vl53l0x_write_reg (vl53l0x_write_reg
          (vl53l0x_write_reg s SYSRANGE_START (0x01 ||| vhv))
          SYSTEM_INTERRUPT_CLEAR 0x01) SYSRANGE_START 0x00) := by
  unfold performSingleRefCalibration
  rw [pollWhile_done_zero _ _ f (by simpa using h)]

/-! ## Claim C3: which polls set the sticky flag -/

/-- C3 counterexample: a run of performSingleRefCalibration whose poll
exceeds its 1 ms deadline at the first guard check returns the timeout
failure false, yet leaves did_timeout clear — the claim that every such
poll sets the sticky flag is false. -/
theorem poll_timeout_flag_cex :
    pollWhile (fun i => ((fun _ => 0 : Nat → Nat) i % 256) &&& 0x07 == 0)
        (checkTimeoutExpired zeroState.io_timeout expiredTickEnv) 1 0 =
      PollOutcome.expired 0 ∧
    (performSingleRefCalibration zeroState expiredTickEnv (fun _ => 0) 0x40 1).map
      (fun r => (r.1, r.2.did_timeout)) = some (false, false) := by
  exact ⟨by decide, by decide⟩

/-- C3 amended: on deadline expiry the two range-read polls set
did_timeout (and the range reads return the 65535 sentinel), while the
calibration poll and the SPAD-info poll return a timeout failure with
did_timeout left unchanged. -/
theorem poll_timeout_flag_behaviour (s : DriverState) (env env1 : TickEnv)
    (irqAt startAt reg83At : Nat → Nat) (vhv fuel j : Nat) :
    (pollWhile (fun i => (irqAt i % 256) &&& 0x07 == 0)
        (checkTimeoutExpired s.io_timeout env) fuel 0 = PollOutcome.expired j →
      vl53l0x_read_range_continuous_millimeters s env irqAt fuel =
        some (65535, { s with did_timeout := true })) ∧
    (pollWhile (fun i => (startAt i % 256) &&& 0x01 != 0)
        (checkTimeoutExpired s.io_timeout env1) fuel 0 = PollOutcome.expired j →
      (vl53l0x_read_range_single_millimeters s env1 startAt env irqAt fuel).map
        (fun r => (r.1, r.2.did_timeout)) = some (65535, true)) ∧
    (pollWhile (fun i => (irqAt i % 256) &&& 0x07 == 0)
        (checkTimeoutExpired s.io_timeout env) fuel 0 = PollOutcome.expired j →
      (performSingleRefCalibration s env irqAt vhv fuel).map
        (fun r => (r.1, r.2.did_timeout)) = some (false, s.did_timeout)) ∧
    (pollWhile (fun i => reg83At i % 256 == 0x00)
        (checkTimeoutExpired s.io_timeout env) fuel 0 = PollOutcome.expired j →
      (getSpadInfo s env reg83At fuel).map (fun r => (r.1, r.2.2.2.did_timeout)) =
        some (false, s.did_timeout)) := by
  refine ⟨?_, ?_, ?_, ?_⟩ <;> intro hpoll
  · exact read_range_continuous_expired s env irqAt fuel j hpoll
  · unfold vl53l0x_read_range_single_millimeters
    rw [hpoll]
    rfl
  · unfold performSingleRefCalibration
    rw [hpoll]
    rfl
  · unfold getSpadInfo
    rw [hpoll]
    rfl

/-- C3 witness for the amended theorem: concrete expired runs of the
continuous-read poll (flag set) and of the calibration poll (flag
untouched). -/
theorem poll_timeout_flag_behaviour_witness :
    vl53l0x_read_range_continuous_millimeters zeroState expiredTickEnv (fun _ => 0) 1 =
      some (65535, { zeroState with did_timeout := true }) ∧
    (performSingleRefCalibration zeroState expiredTickEnv (fun _ => 0) 0x40 1).map
      (fun r => (r.1, r.2.did_timeout)) = some (false, zeroState.did_timeout) :=
  ⟨(poll_timeout_flag_behaviour zeroState expiredTickEnv expiredTickEnv (fun _ => 0)
      (fun _ => 0) (fun _ => 0) 0x40 1 0).1 (by decide),
   (poll_timeout_flag_behaviour zeroState expiredTickEnv expiredTickEnv (fun _ => 0)
      (fun _ => 0) (fun _ => 0) 0x40 1 0).2.2.1 (by decide)⟩

/-! ## Claim C7: range-read timeout, sentinel and flag consumption -/

/-- C7: whichever polling loop of the two range reads exceeds its
deadline, the read returns the 65535 sentinel with did_timeout set, and
vl53l0x_timeout_occurred then reads true once and false immediately
after. -/
theorem read_range_timeout_spec (s : DriverState) (env env1 : TickEnv)
    (irqAt startAt : Nat → Nat) (fuel j j2 : Nat) :
    (pollWhile (fun i => (irqAt i % 256) &&& 0x07 == 0)
        (checkTimeoutExpired s.io_timeout env) fuel 0 = PollOutcome.expired j →
      vl53l0x_read_range_continuous_millimeters s env irqAt fuel =
          some (65535, { s with did_timeout := true }) ∧
        (vl53l0x_timeout_occurred { s with did_timeout := true }).1 = true ∧
        (vl53l0x_timeout_occurred
          (vl53l0x_timeout_occurred { s with did_timeout := true }).2).1 = false) ∧
    (pollWhile (fun i => (startAt i % 256) &&& 0x01 != 0)
        (checkTimeoutExpired s.io_timeout env1) fuel 0 = PollOutcome.expired j →
      (vl53l0x_read_range_single_millimeters s env1 startAt env irqAt fuel).map
        (fun r => (r.1, r.2.did_timeout)) = some (65535, true)) ∧
    (pollWhile (fun i => (startAt i % 256) &&& 0x01 != 0)
        (checkTimeoutExpired s.io_timeout env1) fuel 0 = PollOutcome.done j2 →
      pollWhile (fun i => (irqAt i % 256) &&& 0x07 == 0)
        (checkTimeoutExpired s.io_timeout env) fuel 0 = PollOutcome.expired j →
      (vl53l0x_read_range_single_millimeters s env1 startAt env irqAt fuel).map
        (fun r => (r.1, r.2.did_timeout)) = some (65535, true)) ∧
    (∀ s' : DriverState, s'.did_timeout = true →
      (vl53l0x_timeout_occurred s').1 = true ∧
        (vl53l0x_timeout_occurred (vl53l0x_timeout_occurred s').2).1 = false) := by
  refine ⟨?_, ?_, ?_, ?_⟩
  · intro hpoll
    exact ⟨read_range_continuous_expired s env irqAt fuel j hpoll,
      timeout_occurred_chain _ rfl⟩
  · intro hpoll
    unfold vl53l0x_read_range_single_millimeters
    rw [hpoll]
    rfl
  · intro hdone hpoll
    unfold vl53l0x_read_range_single_millimeters
    rw [hdone]
    exact read_range_continuous_expired_proj _ env irqAt fuel j hpoll
  · intro s' h
    exact timeout_occurred_chain s' h

/-- C7 witness: a concrete continuous read that times out, with the
flag-consumption chain. -/
theorem read_range_timeout_spec_witness :
    vl53l0x_read_range_continuous_millimeters zeroState expiredTickEnv (fun _ => 0) 1 =
        some (65535, { zeroState with did_timeout := true }) ∧
      (vl53l0x_timeout_occurred { zeroState with did_timeout := true }).1 = true ∧
      (vl53l0x_timeout_occurred
        (vl53l0x_timeout_occurred { zeroState with did_timeout := true }).2).1 = false :=
  (read_range_timeout_spec zeroState expiredTickEnv expiredTickEnv (fun _ => 0)
    (fun _ => 0) 1 0 0).1 (by decide)

/-! ## Claim C4: set_address masking -/

/-- C4 counterexample: after vl53l0x_set_address(0x80) the stored address
is 0x80, not the masked value 0x80 & 0x7F = 0x00 the claim requires. -/
theorem set_address_mask_cex :
    (vl53l0x_set_address zeroState 0x80).address ≠ 0x80 &&& 0x7F := by decide

/-- C4 amended: set_address stores the argument unmasked in the address
global, while the value written to the device address register is the
7-bit masked a & 0x7F. -/
theorem set_address_spec (s : DriverState) (a : Nat) :
    (vl53l0x_set_address s a).address = a ∧
    (vl53l0x_set_address s a).writes =
      s.writes ++ [RegWrite.w8 I2C_SLAVE_DEVICE_ADDRESS (a &&& 0x7F)] := by
  constructor
  · rfl
  · show s.writes ++ [RegWrite.w8 I2C_SLAVE_DEVICE_ADDRESS ((a &&& 0x7F) % 256)] = _
    have hmask : (a &&& 0x7F) % 256 = a &&& 0x7F :=
      Nat.mod_eq_of_lt (lt_of_le_of_lt Nat.and_le_right (by norm_num))
    rw [hmask]

/-! ## Claim C5: timing budget minimum and overhead check -/

/-- C5: the budget setter fails below 20000 us; at or above the minimum
with the final-range step enabled it fails exactly when the accumulated
overheads-plus-step-costs exceed the request; on the post-init state 19999
fails and 20000 succeeds. -/
theorem set_timing_budget_spec (s : DriverState) (b : Nat) :
    (b < 20000 → vl53l0x_set_measurement_timing_budget s b = (false, s)) ∧
    (20000 ≤ b → (getSequenceStepEnables s).final_range = true →
      ((vl53l0x_set_measurement_timing_budget s b).1 = false ↔ b < usedBudgetUs s)) ∧
    (vl53l0x_set_measurement_timing_budget postInitState 19999).1 = false ∧
    (vl53l0x_set_measurement_timing_budget postInitState 20000).1 = true := by
  refine ⟨?_, ?_, by decide, by decide⟩
  · intro hb
    unfold vl53l0x_set_measurement_timing_budget
    rw [if_pos hb]
  · intro hb hfin
    unfold vl53l0x_set_measurement_timing_budget
    rw [if_neg (by omega)]
    simp only [hfin, if_true]
    by_cases hlt : b < usedBudgetUs s
    · simp [hlt]
    · simp [hlt]

/-- C5 witness: the two hypotheses discharged on the post-init state. -/
theorem set_timing_budget_spec_witness :
    vl53l0x_set_measurement_timing_budget postInitState 19999 = (false, postInitState) ∧
    ((vl53l0x_set_measurement_timing_budget postInitState 20000).1 = false ↔
      20000 < usedBudgetUs postInitState) :=
  ⟨(set_timing_budget_spec postInitState 19999).1 (by decide),
   (set_timing_budget_spec postInitState 20000).2.1 (by decide) (by decide)⟩

/-! ## Claim C10: frame of the budget setter when final_range is disabled -/

/-- C10: with the final-range step disabled and a budget at or above the
minimum, the setter returns success with the state untouched (no register
write, cached budget unchanged); conversely the cached budget only ever
changes on the success path with final_range enabled. -/
theorem set_timing_budget_final_disabled_frame (s : DriverState) (b : Nat) :
    ((getSequenceStepEnables s).final_range = false → 20000 ≤ b →
      vl53l0x_set_measurement_timing_budget s b = (true, s)) ∧
    ((vl53l0x_set_measurement_timing_budget s b).2.measurement_timing_budget_us ≠
        s.measurement_timing_budget_us →
      (vl53l0x_set_measurement_timing_budget s b).1 = true ∧
        (getSequenceStepEnables s).final_range = true) := by
  constructor
  · intro hfin hb
    unfold vl53l0x_set_measurement_timing_budget
    rw [if_neg (by omega)]
    simp [hfin]
  · intro hne
    unfold vl53l0x_set_measurement_timing_budget at hne ⊢
    by_cases h1 : b < 20000
    · rw [if_pos h1] at hne
      exact absurd rfl hne
    · rw [if_neg h1] at hne ⊢
      by_cases hfin : (getSequenceStepEnables s).final_range
      · simp only [hfin, if_true] at hne ⊢
        by_cases h2 : b < usedBudgetUs s
        · rw [if_pos h2] at hne
          exact absurd rfl hne
        · rw [if_neg h2]
          exact ⟨rfl, trivial⟩
      · simp only [Bool.not_eq_true] at hfin
        simp only [hfin] at hne
        exact absurd rfl hne

/-- C10 witness: on the all-zero state (final_range disabled) a 20000 us
request succeeds without any write or state change. -/
theorem set_timing_budget_final_disabled_frame_witness :
    vl53l0x_set_measurement_timing_budget zeroState 20000 = (true, zeroState) :=
  (set_timing_budget_final_disabled_frame zeroState 20000).1 (by decide) (by decide)

/-! ## Claim C6: validation failures mutate nothing -/

/-- The post-init registers with the pre-range timeout register raised to
0x08FF (65281 mclks, about 3.48 seconds of pre-range time), which drives
the accumulated used budget far above any reasonable request. -/
def overBudgetRegs : Nat → Nat := fun r =>
  if r = 0x51 then 0x08
  else if r = 0x52 then 0xFF
  else postInitRegs r

/-- A state whose enabled steps already cost more than 20000 us. -/
def overBudgetState : DriverState :=
  { postInitState with regs := overBudgetRegs }

/-- C6: each validation failure of the three configuration setters
(out-of-range signal-rate limit, budget below the minimum, budget smaller
than the accumulated overheads, invalid VCSEL period or period type)
returns the input state unchanged: no register write logged, no driver
state mutated. -/
theorem config_validation_failure_frame (s : DriverState) (lim : ℚ) (b ty p : Nat)
    (env : TickEnv) (irqAt : Nat → Nat) (fuel : Nat) :
    ((lim < 0 ∨ 511.99 < lim) → vl53l0x_set_signal_rate_limit s lim = (false, s)) ∧
    (b < 20000 → vl53l0x_set_measurement_timing_budget s b = (false, s)) ∧
    (20000 ≤ b → (getSequenceStepEnables s).final_range = true → b < usedBudgetUs s →
      vl53l0x_set_measurement_timing_budget s b = (false, s)) ∧
    ((¬ (ty = VcselPeriodPreRange ∧ (p = 12 ∨ p = 14 ∨ p = 16 ∨ p = 18)) ∧
        ¬ (ty = VcselPeriodFinalRange ∧ (p = 8 ∨ p = 10 ∨ p = 12 ∨ p = 14))) →
      vl53l0x_set_vcsel_pulse_period s ty p env irqAt fuel = some (false, s)) := by
  refine ⟨?_, ?_, ?_, ?_⟩
  · intro h
    unfold vl53l0x_set_signal_rate_limit
    rw [if_pos h]
  · intro hb
    unfold vl53l0x_set_measurement_timing_budget
    rw [if_pos hb]
  · intro hb hfin hlt
    unfold vl53l0x_set_measurement_timing_budget
    rw [if_neg (by omega)]
    simp only [hfin, if_true]
    rw [if_pos hlt]
  · intro hinv
    obtain ⟨hn1, hn2⟩ := hinv
    unfold vl53l0x_set_vcsel_pulse_period
    by_cases hty : ty = VcselPeriodPreRange
    · rw [if_pos hty, if_neg (fun hv => hn1 ⟨hty, hv⟩)]
    · rw [if_neg hty]
      by_cases hty2 : ty = VcselPeriodFinalRange
      · rw [if_pos hty2, if_neg (fun hv => hn2 ⟨hty2, hv⟩)]
      · rw [if_neg hty2]

/-- C6 witness: a concrete failing input for each of the four validation
paths, each leaving the state untouched. -/
theorem config_validation_failure_frame_witness :
    vl53l0x_set_signal_rate_limit zeroState (-1) = (false, zeroState) ∧
    vl53l0x_set_measurement_timing_budget zeroState 19999 = (false, zeroState) ∧
    vl53l0x_set_measurement_timing_budget overBudgetState 20000 = (false, overBudgetState) ∧
    vl53l0x_set_vcsel_pulse_period zeroState VcselPeriodPreRange 13 idleTickEnv
      (fun _ => 0) 0 = some (false, zeroState) :=
  ⟨(config_validation_failure_frame zeroState (-1) 19999 VcselPeriodPreRange 13 idleTickEnv
      (fun _ => 0) 0).1 (Or.inl (by norm_num)),
   (config_validation_failure_frame zeroState (-1) 19999 VcselPeriodPreRange 13 idleTickEnv
      (fun _ => 0) 0).2.1 (by decide),
   (config_validation_failure_frame overBudgetState (-1) 20000 VcselPeriodPreRange 13
      idleTickEnv (fun _ => 0) 0).2.2.1 (by decide) (by decide) (by decide),
   (config_validation_failure_frame zeroState (-1) 19999 VcselPeriodPreRange 13 idleTickEnv
      (fun _ => 0) 0).2.2.2 (by decide)⟩

/-! ## Claim C8: VCSEL pulse period validation -/

/-- When the device reports the interrupt at once, the shared tail of
set_vcsel_pulse_period completes and the function reports success. -/
theorem setVcselPulsePeriodTail_true (s : DriverState) (env : TickEnv) (irqAt : Nat → Nat)
    (fuel : Nat) (hfuel : 1 ≤ fuel) (hresp : (irqAt 0 % 256) &&& 0x07 ≠ 0) :
    (setVcselPulsePeriodTail s env irqAt fuel).map Prod.fst = some true := by
  obtain ⟨f, rfl⟩ : ∃ f, fuel = f + 1 := ⟨fuel - 1, by omega⟩
  simp only [setVcselPulsePeriodTail]
  rw [performSingleRefCalibration_succeeds _ env irqAt 0x0 f hresp]
  rfl

/-- C8: under a device that reports the calibration interrupt (so the
internal phase-calibration poll terminates), set_vcsel_pulse_period
succeeds exactly on (PreRange, 12|14|16|18) and (FinalRange, 8|10|12|14),
and returns failure on every other pair. -/
theorem set_vcsel_pulse_period_valid_iff (s : DriverState) (ty p : Nat) (env : TickEnv)
    (irqAt : Nat → Nat) (fuel : Nat) (hfuel : 1 ≤ fuel)
    (hresp : (irqAt 0 % 256) &&& 0x07 ≠ 0) :
    ((vl53l0x_set_vcsel_pulse_period s ty p env irqAt fuel).map Prod.fst = some true ↔
      (ty = VcselPeriodPreRange ∧ (p = 12 ∨ p = 14 ∨ p = 16 ∨ p = 18)) ∨
        (ty = VcselPeriodFinalRange ∧ (p = 8 ∨ p = 10 ∨ p = 12 ∨ p = 14))) ∧
    (¬ ((ty = VcselPeriodPreRange ∧ (p = 12 ∨ p = 14 ∨ p = 16 ∨ p = 18)) ∨
        (ty = VcselPeriodFinalRange ∧ (p = 8 ∨ p = 10 ∨ p = 12 ∨ p = 14))) →
      (vl53l0x_set_vcsel_pulse_period s ty p env irqAt fuel).map Prod.fst = some false) := by
  have hmain : ((ty = VcselPeriodPreRange ∧ (p = 12 ∨ p = 14 ∨ p = 16 ∨ p = 18)) ∨
      (ty = VcselPeriodFinalRange ∧ (p = 8 ∨ p = 10 ∨ p = 12 ∨ p = 14))) →
      (vl53l0x_set_vcsel_pulse_period s ty p env irqAt fuel).map Prod.fst = some true := by
    intro hval
    unfold vl53l0x_set_vcsel_pulse_period
    rcases hval with ⟨hty, hv⟩ | ⟨hty, hv⟩
    · rw [if_pos hty, if_pos hv]
      exact setVcselPulsePeriodTail_true _ env irqAt fuel hfuel hresp
    · have hne : ty ≠ VcselPeriodPreRange := by rw [hty]; decide
      rw [if_neg hne, if_pos hty, if_pos hv]
      exact setVcselPulsePeriodTail_true _ env irqAt fuel hfuel hresp
  have hinv : ¬ ((ty = VcselPeriodPreRange ∧ (p = 12 ∨ p = 14 ∨ p = 16 ∨ p = 18)) ∨
      (ty = VcselPeriodFinalRange ∧ (p = 8 ∨ p = 10 ∨ p = 12 ∨ p = 14))) →
      (vl53l0x_set_vcsel_pulse_period s ty p env irqAt fuel).map Prod.fst = some false := by
    intro hnv
    unfold vl53l0x_set_vcsel_pulse_period
    by_cases hty : ty = VcselPeriodPreRange
    · rw [if_pos hty, if_neg (fun hv => hnv (Or.inl ⟨hty, hv⟩))]
      rfl
    · rw [if_neg hty]
      by_cases hty2 : ty = VcselPeriodFinalRange
      · rw [if_pos hty2, if_neg (fun hv => hnv (Or.inr ⟨hty2, hv⟩))]
        rfl
      · rw [if_neg hty2]
        rfl
  refine ⟨⟨?_, hmain⟩, hinv⟩
  intro hsome
  by_contra hnv
  rw [hinv hnv] at hsome
  simp at hsome

/-- C8 witness: on the post-init state (PreRange, 14) succeeds and
(PreRange, 13) fails, under a device whose interrupt status is 0x07. -/
theorem set_vcsel_pulse_period_valid_iff_witness :
    (vl53l0x_set_vcsel_pulse_period postInitState VcselPeriodPreRange 14 idleTickEnv
        (fun _ => 7) 1).map Prod.fst = some true ∧
    (vl53l0x_set_vcsel_pulse_period postInitState VcselPeriodPreRange 13 idleTickEnv
        (fun _ => 7) 1).map Prod.fst = some false :=
  ⟨((set_vcsel_pulse_period_valid_iff postInitState VcselPeriodPreRange 14 idleTickEnv
      (fun _ => 7) 1 (by decide) (by decide)).1).mpr (Or.inl ⟨rfl, by decide⟩),
   (set_vcsel_pulse_period_valid_iff postInitState VcselPeriodPreRange 13 idleTickEnv
      (fun _ => 7) 1 (by decide) (by decide)).2 (by decide)⟩

/-! ## Claim C9: start_continuous write sequence -/

/-- C9: start_continuous first replays the stop_variable restore sequence;
with a nonzero period it programs the inter-measurement period register
with the period scaled by the oscillator-calibration value (unscaled when
that value reads zero) and starts in timed mode 0x04, and with period zero
it starts in back-to-back mode 0x02 without programming the period
register. -/
theorem start_continuous_spec (s : DriverState) (period_ms : Nat) :
    (vl53l0x_start_continuous s period_ms).writes =
      s.writes ++
        [RegWrite.w8 0x80 0x01, RegWrite.w8 0xFF 0x01, RegWrite.w8 0x00 0x00,
         RegWrite.w8 0x91 (s.stop_variable % 256), RegWrite.w8 0x00 0x01,
         RegWrite.w8 0xFF 0x00, RegWrite.w8 0x80 0x00] ++
        (if period_ms ≠ 0 then
          [RegWrite.w32 SYSTEM_INTERMEASUREMENT_PERIOD
             ((if vl53l0x_read_reg16_bit s OSC_CALIBRATE_VAL ≠ 0 then
                 period_ms * vl53l0x_read_reg16_bit s OSC_CALIBRATE_VAL % 4294967296
               else period_ms) % 4294967296),
           RegWrite.w8 SYSRANGE_START 0x04]
         else [RegWrite.w8 SYSRANGE_START 0x02]) := by
  by_cases hp : period_ms ≠ 0
  · simp only [vl53l0x_start_continuous, vl53l0x_write_reg, vl53l0x_write_reg32_bit,
      vl53l0x_read_reg16_bit, OSC_CALIBRATE_VAL, SYSTEM_INTERMEASUREMENT_PERIOD,
      SYSRANGE_START, if_pos hp]
    norm_num [List.append_assoc]
  · simp only [vl53l0x_start_continuous, vl53l0x_write_reg, vl53l0x_write_reg32_bit,
      vl53l0x_read_reg16_bit, OSC_CALIBRATE_VAL, SYSTEM_INTERMEASUREMENT_PERIOD,
      SYSRANGE_START, if_neg hp]
    norm_num [List.append_assoc]
